import Mathlib

/-!
# Verification of tetra's batched 2D sprite renderer (`src/graphics/mod.rs`)

A shallow embedding of the renderer core. Floating-point (`f32`) arithmetic
is modelled exactly over `ℚ`; Rust `i32`/`usize` arithmetic is modelled over
`ℤ`/`ℕ`, with Rust's truncating integer division embedded as `Int.tdiv`.
Calls into the OpenGL device collaborator (`ctx.gl.*`, `ctx.window.*`) are
recorded as a trace of `GLCall` values; every stateful renderer operation
returns the updated `GraphicsContext` together with the trace of device
calls it issued, in order.
-/

namespace Tetra

/-- Constant `SPRITE_CAPACITY` (src line 23). -/
def SPRITE_CAPACITY : ℕ := 1024

/-- Constant `VERTEX_STRIDE` (src line 24): floats per vertex. -/
def VERTEX_STRIDE : ℕ := 8

/-- Constant `INDEX_STRIDE` (src line 25): indices per quad. -/
def INDEX_STRIDE : ℕ := 6

/-- Constant `INDEX_ARRAY` (src line 26): the repeating quad index pattern. -/
def INDEX_ARRAY : List ℕ := [0, 1, 2, 2, 3, 0]

/-- Type `Rectangle` (src lines 142-154): a rectangle of `f32`s, modelled over `ℚ`. -/
structure Rectangle where
  x : ℚ
  y : ℚ
  width : ℚ
  height : ℚ
deriving DecidableEq, Repr

/-- Constructor `Rectangle::new` (src lines 158-165). -/
def Rectangle.new (x y width height : ℚ) : Rectangle :=
  { x := x, y := y, width := width, height := height }

/-- Type `RectangleRow` (src lines 208-210): the state of the `row` iterator. -/
structure RectangleRow where
  next_rect : Rectangle
deriving DecidableEq, Repr

/-- Type `RectangleColumn` (src lines 222-224): the state of the `column` iterator. -/
structure RectangleColumn where
  next_rect : Rectangle
deriving DecidableEq, Repr

/-- Function `Rectangle::row` (src lines 181-185). -/
def Rectangle.row (x y width height : ℚ) : RectangleRow :=
  { next_rect := Rectangle.new x y width height }

/-- Function `Rectangle::column` (src lines 201-205). -/
def Rectangle.column (x y width height : ℚ) : RectangleColumn :=
  { next_rect := Rectangle.new x y width height }

/-- Method `next` of the `RectangleRow` iterator (src lines 215-219): returns the current
rectangle and advances `x` by `width`.  The `Option` result is the iterator
protocol's item; `none` would mean end-of-sequence. -/
def RectangleRow.next (it : RectangleRow) : Option Rectangle × RectangleRow :=
  let current_rect := it.next_rect
  (some current_rect,
   { next_rect := { it.next_rect with x := it.next_rect.x + it.next_rect.width } })

/-- Method `next` of the `RectangleColumn` iterator (src lines 229-233). -/
def RectangleColumn.next (it : RectangleColumn) : Option Rectangle × RectangleColumn :=
  let current_rect := it.next_rect
  (some current_rect,
   { next_rect := { it.next_rect with y := it.next_rect.y + it.next_rect.height } })

/-- The `n`-th item (0-indexed) produced by a `RectangleRow` iterator. -/
def RectangleRow.nth (it : RectangleRow) : ℕ → Option Rectangle
  | 0 => it.next.1
  | n + 1 => it.next.2.nth n

/-- The `n`-th item (0-indexed) produced by a `RectangleColumn` iterator. -/
def RectangleColumn.nth (it : RectangleColumn) : ℕ → Option Rectangle
  | 0 => it.next.1
  | n + 1 => it.next.2.nth n

/-- A column-major 4x4 `f32` matrix (`glm::Mat4`), modelled over `ℚ`.
Field `cIrJ` is column `I`, row `J`, exactly as the source names its locals. -/
structure Mat4 where
  c0r0 : ℚ
  c0r1 : ℚ
  c0r2 : ℚ
  c0r3 : ℚ
  c1r0 : ℚ
  c1r1 : ℚ
  c1r2 : ℚ
  c1r3 : ℚ
  c2r0 : ℚ
  c2r1 : ℚ
  c2r2 : ℚ
  c2r3 : ℚ
  c3r0 : ℚ
  c3r1 : ℚ
  c3r2 : ℚ
  c3r3 : ℚ
deriving DecidableEq, Repr

/-- Function `ortho` (src lines 546-571): the orthographic projection matrix. -/
def ortho (left right bottom top near far : ℚ) : Mat4 :=
  let c0r0 := 2 / (right - left)
  let c0r1 := 0
  let c0r2 := 0
  let c0r3 := 0
  let c1r0 := 0
  let c1r1 := 2 / (top - bottom)
  let c1r2 := 0
  let c1r3 := 0
  let c2r0 := 0
  let c2r1 := 0
  let c2r2 := -2 / (far - near)
  let c2r3 := 0
  let c3r0 := -(right + left) / (right - left)
  let c3r1 := -(top + bottom) / (top - bottom)
  let c3r2 := -(far + near) / (far - near)
  let c3r3 := 1
  { c0r0 := c0r0, c0r1 := c0r1, c0r2 := c0r2, c0r3 := c0r3,
    c1r0 := c1r0, c1r1 := c1r1, c1r2 := c1r2, c1r3 := c1r3,
    c2r0 := c2r0, c2r1 := c2r1, c2r2 := c2r2, c2r3 := c2r3,
    c3r0 := c3r0, c3r1 := c3r1, c3r2 := c3r2, c3r3 := c3r3 }

/-- A column-major 4x4 matrix applied to the homogeneous column vector
`(x, y, z, w)` (the usual GLSL `projection * vertex` product). -/
def Mat4.mulVec (m : Mat4) (x y z w : ℚ) : ℚ × ℚ × ℚ × ℚ :=
  (m.c0r0 * x + m.c1r0 * y + m.c2r0 * z + m.c3r0 * w,
   m.c0r1 * x + m.c1r1 * y + m.c2r1 * z + m.c3r1 * w,
   m.c0r2 * x + m.c1r2 * y + m.c2r2 * z + m.c3r2 * w,
   m.c0r3 * x + m.c1r3 * y + m.c2r3 * z + m.c3r3 * w)

/-- Function `letterbox` (src lines 521-544).  All arithmetic is Rust `i32` arithmetic;
Rust's `/` on `i32` truncates toward zero, i.e. `Int.tdiv`. -/
def letterbox (internal_width internal_height window_width window_height : ℤ) :
    Rectangle :=
  let scale_factor :=
    if window_width ≤ window_height then Int.tdiv window_width internal_width
    else Int.tdiv window_height internal_height
  let letterbox_width := internal_width * scale_factor
  let letterbox_height := internal_height * scale_factor
  let letterbox_x := Int.tdiv (window_width - letterbox_width) 2
  let letterbox_y := Int.tdiv (window_height - letterbox_height) 2
  Rectangle.new (letterbox_x : ℚ) (letterbox_y : ℚ)
    (letterbox_width : ℚ) (letterbox_height : ℚ)

/-- Modelled from the spec: `Color` (graphics/color.rs, not under src/) is a
thin RGBA data holder; `r`, `g`, `b`, `a` are `f32` channels, modelled over `ℚ`. -/
structure Color where
  r : ℚ
  g : ℚ
  b : ℚ
  a : ℚ
deriving DecidableEq, Repr

/-- Modelled from the spec: `color::WHITE`, opaque white — "color=opaque white"
is the default tint and `present` emits its quad "tinted white". -/
def WHITE : Color := { r := 1, g := 1, b := 1, a := 1 }

/-- Modelled from the spec: `color::BLACK` — `present` clears the window
surface to black (the letterbox background). -/
def BLACK : Color := { r := 0, g := 0, b := 0, a := 1 }

/-- Modelled from the spec: a `Texture` (graphics/texture.rs, not under src/)
wraps its device handle; `set_texture` "compares against currently bound
texture by value/identity-equality", modelled as equality of handles. -/
structure Texture where
  handle : ℕ
deriving DecidableEq, Repr

/-- Modelled from the spec: a `Shader` (graphics/shader.rs, not under src/)
wraps its compiled program handle. -/
structure Shader where
  handle : ℕ
deriving DecidableEq, Repr

/-- One call into the graphics-device collaborator (`ctx.gl.*` /
`ctx.window.*`), recorded for the trace semantics. -/
inductive GLCall where
  | setUniform (shader : ℕ) (name : String) (value : Mat4)
  | setVertexBufferData (buffer : ℕ) (data : List ℚ) (offset : ℕ)
  | draw (vertexBuffer : ℕ) (indexBuffer : ℕ) (shader : ℕ) (texture : ℕ) (count : ℕ)
  | clear (r g b a : ℚ)
  | bindDefaultFramebuffer
  | bindFramebuffer (framebuffer : ℕ)
  | setViewport (x y w h : ℤ)
  | swapWindow
deriving DecidableEq, Repr

/-- Type `GraphicsContext` (src lines 30-52): the render state.  GPU-side resources
are represented by their handles. -/
structure GraphicsContext where
  vertex_buffer : ℕ
  index_buffer : ℕ
  framebuffer : ℕ
  framebuffer_texture : Texture
  texture : Option Texture
  shader : Option Shader
  default_shader : Shader
  internal_projection : Mat4
  window_projection : Mat4
  vertices : List ℚ
  sprite_count : ℕ
  capacity : ℕ
  internal_width : ℤ
  internal_height : ℤ
  window_width : ℤ
  window_height : ℤ
  letterbox : Rectangle
deriving Repr

/-- Function `clear` (src lines 358-360): clears the active render target. -/
def clear (ctx : GraphicsContext) (color : Color) : GraphicsContext × List GLCall :=
  (ctx, [GLCall.clear color.r color.g color.b color.a])

/-- Function `push_vertex` (src lines 362-371): appends one vertex's 8 floats to the
scratch buffer. -/
def push_vertex (ctx : GraphicsContext) (x y u v : ℚ) (color : Color) :
    GraphicsContext :=
  { ctx with vertices := ctx.vertices ++ [x, y, u, v, color.r, color.g, color.b, color.a] }

/-- Function `flush` (src lines 405-434): when there are buffered sprites and a bound
texture, select the shader, set its projection uniform to the internal
projection, upload the scratch buffer at offset 0, draw `sprite_count * 6`
indices, and empty the batch; otherwise do nothing. -/
def flush (ctx : GraphicsContext) : GraphicsContext × List GLCall :=
  match ctx.texture with
  | some texture =>
    if 0 < ctx.sprite_count then
      let shader := ctx.shader.getD ctx.default_shader
      ({ ctx with vertices := [], sprite_count := 0 },
       [GLCall.setUniform shader.handle "projection" ctx.internal_projection,
        GLCall.setVertexBufferData ctx.vertex_buffer ctx.vertices 0,
        GLCall.draw ctx.vertex_buffer ctx.index_buffer shader.handle texture.handle
          (ctx.sprite_count * INDEX_STRIDE)])
    else (ctx, [])
  | none => (ctx, [])

/-- Function `set_texture` (src lines 387-398).  Note the source's order in the
different-texture arm: the new texture is stored *first*, and only then is
`flush` called. -/
def set_texture (ctx : GraphicsContext) (texture : Texture) :
    GraphicsContext × List GLCall :=
  match ctx.texture with
  | some inner =>
    if inner = texture then (ctx, [])
    else flush { ctx with texture := some texture }
  | none => ({ ctx with texture := some texture }, [])

/-- Function `present` (src lines 440-507): flush, bind the window surface, clear to
black, draw the offscreen texture as one letterboxed quad with the window
projection, swap, and rebind the offscreen framebuffer. -/
def present (ctx : GraphicsContext) : GraphicsContext × List GLCall :=
  let fl := flush ctx
  let ctx1 := fl.1
  let cl := clear ctx1 BLACK
  let lb := ctx1.letterbox
  let ctx2 := push_vertex ctx1 lb.x lb.y 0 1 WHITE
  let ctx3 := push_vertex ctx2 lb.x (lb.y + lb.height) 0 0 WHITE
  let ctx4 := push_vertex ctx3 (lb.x + lb.width) (lb.y + lb.height) 1 0 WHITE
  let ctx5 := push_vertex ctx4 (lb.x + lb.width) lb.y 1 1 WHITE
  let ctx6 := { ctx5 with vertices := [] }
  (ctx6,
   fl.2 ++
   [GLCall.bindDefaultFramebuffer,
    GLCall.setViewport 0 0 ctx1.window_width ctx1.window_height] ++
   cl.2 ++
   [GLCall.setUniform ctx5.default_shader.handle "projection" ctx5.window_projection,
    GLCall.setVertexBufferData ctx5.vertex_buffer ctx5.vertices 0,
    GLCall.draw ctx5.vertex_buffer ctx5.index_buffer ctx5.default_shader.handle
      ctx5.framebuffer_texture.handle INDEX_STRIDE,
    GLCall.swapWindow,
    GLCall.bindFramebuffer ctx6.framebuffer,
    GLCall.setViewport 0 0 ctx6.internal_width ctx6.internal_height])

/-- Function `set_window_size` (src lines 509-519). -/
def set_window_size (ctx : GraphicsContext) (width height : ℤ) : GraphicsContext :=
  { ctx with
    window_width := width,
    window_height := height,
    window_projection := ortho 0 (width : ℚ) (height : ℚ) 0 (-1) 1,
    letterbox := letterbox ctx.internal_width ctx.internal_height width height }

/-- Rust's `iter().cycle().take(n)` over a list: the first `n` items of the
infinite cyclic repetition of `l` (empty if `l` is empty). -/
def cycleTake (l : List ℕ) (n : ℕ) : List ℕ :=
  if h : n = 0 ∨ l.length = 0 then []
  else l.take n ++ cycleTake l (n - l.length)
termination_by n
decreasing_by
  push_neg at h
  omega

/-- The data `GraphicsContext::new` uploads into the fixed index buffer
(src lines 74-80): the cycled `INDEX_ARRAY`, each entry offset by
`4 * (position / INDEX_STRIDE)`. -/
def indexBufferData : List ℕ :=
  ((cycleTake INDEX_ARRAY (SPRITE_CAPACITY * INDEX_STRIDE)).enum).map
    (fun p => p.2 + p.1 / INDEX_STRIDE * 4)

/-- One vertex of a quad as a drawable produces it: position, UV, tint. -/
structure Vertex where
  x : ℚ
  y : ℚ
  u : ℚ
  v : ℚ
  color : Color
deriving Repr

/-- Modelled from the spec: the `Drawable` contract of §4.4 — the concrete
drawable implementations (e.g. graphics/texture.rs) are not under src/; a
drawable's render call binds its texture via `set_texture`, pushes the quad's
four corner vertices via `push_vertex`, and increments `sprite_count`. -/
def drawQuad (ctx : GraphicsContext) (tex : Texture) (v0 v1 v2 v3 : Vertex) :
    GraphicsContext × List GLCall :=
  let st := set_texture ctx tex
  let c1 := push_vertex st.1 v0.x v0.y v0.u v0.v v0.color
  let c2 := push_vertex c1 v1.x v1.y v1.u v1.v v1.color
  let c3 := push_vertex c2 v2.x v2.y v2.u v2.v v2.color
  let c4 := push_vertex c3 v3.x v3.y v3.u v3.v v3.color
  ({ c4 with sprite_count := c4.sprite_count + 1 }, st.2)

/-- Run a sequence of `drawQuad` calls, keeping only the final state. -/
def applyDraws (ctx : GraphicsContext) :
    List (Texture × Vertex × Vertex × Vertex × Vertex) → GraphicsContext
  | [] => ctx
  | d :: ds => applyDraws (drawQuad ctx d.1 d.2.1 d.2.2.1 d.2.2.2.1 d.2.2.2.2).1 ds

/-- The vertex-buffer payloads uploaded in a device trace, in order. -/
def uploads (trace : List GLCall) : List (List ℚ) :=
  trace.filterMap fun c =>
    match c with
    | GLCall.setVertexBufferData _ data _ => some data
    | _ => none

/-- The 32 floats of the single letterboxed quad `present` emits: the four
corners of the letterbox rectangle, UVs spanning all of `[0,1]²`, white tint. -/
def letterboxQuad (ctx : GraphicsContext) : List ℚ :=
  let lb := ctx.letterbox
  [lb.x, lb.y, 0, 1, 1, 1, 1, 1,
   lb.x, lb.y + lb.height, 0, 0, 1, 1, 1, 1,
   lb.x + lb.width, lb.y + lb.height, 1, 0, 1, 1, 1, 1,
   lb.x + lb.width, lb.y, 1, 1, 1, 1, 1, 1]

/-- The batch invariant of spec §3: `vertices.length == sprite_count * 4 * 8`. -/
def batchInv (ctx : GraphicsContext) : Prop :=
  ctx.vertices.length = ctx.sprite_count * (4 * VERTEX_STRIDE)

instance (ctx : GraphicsContext) : Decidable (batchInv ctx) := by
  unfold batchInv
  infer_instance

/-- A concrete render state used to evaluate the operations: texture 0 bound,
one buffered quad (32 zero floats), no explicit shader. -/
def sampleCtx : GraphicsContext :=
  { vertex_buffer := 10
    index_buffer := 11
    framebuffer := 12
    framebuffer_texture := { handle := 13 }
    texture := some { handle := 0 }
    shader := none
    default_shader := { handle := 5 }
    internal_projection := { c0r0 := 1, c0r1 := 0, c0r2 := 0, c0r3 := 0,
                             c1r0 := 0, c1r1 := 1, c1r2 := 0, c1r3 := 0,
                             c2r0 := 0, c2r1 := 0, c2r2 := 1, c2r3 := 0,
                             c3r0 := 0, c3r1 := 0, c3r2 := 0, c3r3 := 1 }
    window_projection := { c0r0 := 1, c0r1 := 0, c0r2 := 0, c0r3 := 0,
                           c1r0 := 0, c1r1 := 1, c1r2 := 0, c1r3 := 0,
                           c2r0 := 0, c2r1 := 0, c2r2 := 1, c2r3 := 0,
                           c3r0 := 0, c3r1 := 0, c3r2 := 0, c3r3 := 1 }
    vertices := List.replicate 32 0
    sprite_count := 1
    capacity := 1024
    internal_width := 320
    internal_height := 240
    window_width := 640
    window_height := 480
    letterbox := Rectangle.new 0 0 640 480 }

/-- A render state with buffered sprites but no bound texture. -/
def noTextureCtx : GraphicsContext :=
  { sampleCtx with texture := none, sprite_count := 3, vertices := List.replicate 96 0 }

/-! ## Helper lemmas -/

theorem flush_of_none {ctx : GraphicsContext} (h : ctx.texture = none) :
    flush ctx = (ctx, []) := by
  unfold flush
  rw [h]

theorem flush_of_zero {ctx : GraphicsContext} (h : ctx.sprite_count = 0) :
    flush ctx = (ctx, []) := by
  unfold flush
  cases htex : ctx.texture with
  | none => rfl
  | some tex => simp [h]

theorem flush_of_pos {ctx : GraphicsContext} {tex : Texture}
    (htex : ctx.texture = some tex) (hc : 0 < ctx.sprite_count) :
    flush ctx =
      ({ ctx with vertices := [], sprite_count := 0 },
       [GLCall.setUniform (ctx.shader.getD ctx.default_shader).handle "projection"
          ctx.internal_projection,
        GLCall.setVertexBufferData ctx.vertex_buffer ctx.vertices 0,
        GLCall.draw ctx.vertex_buffer ctx.index_buffer
          (ctx.shader.getD ctx.default_shader).handle tex.handle
          (ctx.sprite_count * INDEX_STRIDE)]) := by
  unfold flush
  rw [htex]
  simp [hc]

/-- Lemma: `flush` leaves an empty batch whenever a texture is bound, or the batch
invariant rules out stale vertices. -/
theorem flush_empties {ctx : GraphicsContext} (hinv : batchInv ctx)
    (h : ctx.texture.isSome = true ∨ ctx.sprite_count = 0) :
    (flush ctx).1.sprite_count = 0 ∧ (flush ctx).1.vertices = [] := by
  rcases Nat.eq_zero_or_pos ctx.sprite_count with hz | hpos
  · rw [flush_of_zero hz]
    refine ⟨hz, ?_⟩
    have hl : ctx.vertices.length = 0 := by
      rw [hinv, hz]
      ring
    exact List.length_eq_zero.mp hl
  · rcases h with hsome | hz
    · rcases Option.isSome_iff_exists.mp hsome with ⟨tex, htex⟩
      rw [flush_of_pos htex hpos]
      exact ⟨rfl, rfl⟩
    · omega

theorem set_texture_texture (ctx : GraphicsContext) (tex : Texture) :
    (set_texture ctx tex).1.texture = some tex := by
  unfold set_texture
  cases htex : ctx.texture with
  | none => rfl
  | some inner =>
    by_cases he : inner = tex
    · simp [he, htex]
    · simp only [if_neg he]
      rcases Nat.eq_zero_or_pos ctx.sprite_count with hz | hpos
      · rw [flush_of_zero (show ({ ctx with texture := some tex } : GraphicsContext).sprite_count = 0 from hz)]
      · rw [flush_of_pos (show ({ ctx with texture := some tex } : GraphicsContext).texture = some tex from rfl) hpos]

theorem set_texture_batchInv {ctx : GraphicsContext} (hinv : batchInv ctx)
    (tex : Texture) : batchInv (set_texture ctx tex).1 := by
  unfold set_texture
  cases htex : ctx.texture with
  | none => exact hinv
  | some inner =>
    by_cases he : inner = tex
    · simpa [he] using hinv
    · simp only [if_neg he]
      rcases Nat.eq_zero_or_pos ctx.sprite_count with hz | hpos
      · rw [flush_of_zero (show ({ ctx with texture := some tex } : GraphicsContext).sprite_count = 0 from hz)]
        exact hinv
      · rw [flush_of_pos (show ({ ctx with texture := some tex } : GraphicsContext).texture = some tex from rfl) hpos]
        simp [batchInv]

theorem drawQuad_texture (ctx : GraphicsContext) (tex : Texture)
    (v0 v1 v2 v3 : Vertex) : (drawQuad ctx tex v0 v1 v2 v3).1.texture = some tex := by
  unfold drawQuad push_vertex
  simpa using set_texture_texture ctx tex

theorem drawQuad_batchInv {ctx : GraphicsContext} (hinv : batchInv ctx)
    (tex : Texture) (v0 v1 v2 v3 : Vertex) :
    batchInv (drawQuad ctx tex v0 v1 v2 v3).1 := by
  have h := set_texture_batchInv hinv tex
  unfold drawQuad push_vertex
  unfold batchInv VERTEX_STRIDE at h ⊢
  simp only [List.length_append, List.length_cons, List.length_nil]
  omega

theorem applyDraws_good {ctx : GraphicsContext} (hinv : batchInv ctx)
    (h : ctx.texture.isSome = true ∨ ctx.sprite_count = 0)
    (ds : List (Texture × Vertex × Vertex × Vertex × Vertex)) :
    batchInv (applyDraws ctx ds) ∧
      ((applyDraws ctx ds).texture.isSome = true ∨ (applyDraws ctx ds).sprite_count = 0) := by
  induction ds generalizing ctx with
  | nil => exact ⟨hinv, h⟩
  | cons d ds ih =>
    apply ih
    · exact drawQuad_batchInv hinv d.1 d.2.1 d.2.2.1 d.2.2.2.1 d.2.2.2.2
    · left
      rw [drawQuad_texture]
      rfl

theorem cycleTake_zero (l : List ℕ) : cycleTake l 0 = [] := by
  rw [cycleTake]
  simp

theorem cycleTake_length (l : List ℕ) (hl : l.length ≠ 0) :
    ∀ n : ℕ, (cycleTake l n).length = n := by
  intro n
  induction n using Nat.strong_induction_on with
  | _ n ih =>
    rw [cycleTake]
    by_cases hn : n = 0
    · simp [hn]
    · rw [dif_neg (by push_neg; exact ⟨hn, hl⟩)]
      simp only [List.length_append, List.length_take]
      rcases le_or_lt l.length n with hle | hlt
      · rw [ih (n - l.length) (by omega)]
        omega
      · have h0 : n - l.length = 0 := by omega
        rw [h0, cycleTake_zero]
        simp only [List.length_nil]
        omega

theorem cycleTake_getElem? (l : List ℕ) (hl : l.length ≠ 0) :
    ∀ n i : ℕ, i < n → (cycleTake l n)[i]? = l[i % l.length]? := by
  intro n
  induction n using Nat.strong_induction_on with
  | _ n ih =>
    intro i hi
    rw [cycleTake, dif_neg (by push_neg; exact ⟨by omega, hl⟩)]
    rw [List.getElem?_append]
    rcases lt_or_le i l.length with hlt | hle
    · rw [if_pos (by simp only [List.length_take]; omega)]
      rw [List.getElem?_take, if_pos hi, Nat.mod_eq_of_lt hlt]
    · have hlen : (l.take n).length = l.length := by
        simp only [List.length_take]
        omega
      rw [if_neg (by omega), hlen,
        ih (n - l.length) (by omega) (i - l.length) (by omega),
        Nat.mod_eq_sub_mod hle]

theorem cycleTake_getD (l : List ℕ) (d : ℕ) (hl : l.length ≠ 0) (n i : ℕ)
    (hi : i < n) : (cycleTake l n).getD i d = l.getD (i % l.length) d := by
  rw [List.getD_eq_getElem?_getD, List.getD_eq_getElem?_getD,
    cycleTake_getElem? l hl n i hi]

/-- The entry at position `i` of the fixed index buffer. -/
theorem indexBufferData_getD (i : ℕ) (hi : i < SPRITE_CAPACITY * INDEX_STRIDE) :
    indexBufferData.getD i 0 = INDEX_ARRAY.getD (i % 6) 0 + 4 * (i / 6) := by
  have hbase : (cycleTake INDEX_ARRAY (SPRITE_CAPACITY * INDEX_STRIDE)).length =
      SPRITE_CAPACITY * INDEX_STRIDE :=
    cycleTake_length INDEX_ARRAY (by decide) _
  have hlt : i < (cycleTake INDEX_ARRAY (SPRITE_CAPACITY * INDEX_STRIDE)).length := by
    omega
  have hlt2 : i < (((cycleTake INDEX_ARRAY (SPRITE_CAPACITY * INDEX_STRIDE)).enum).map
      (fun p => p.2 + p.1 / INDEX_STRIDE * 4)).length := by
    simpa using hlt
  unfold indexBufferData
  rw [List.getD_eq_getElem _ _ hlt2, List.getElem_map, List.getElem_enum]
  have hbody : (cycleTake INDEX_ARRAY (SPRITE_CAPACITY * INDEX_STRIDE))[i] =
      INDEX_ARRAY.getD (i % 6) 0 := by
    have h6 : i % INDEX_ARRAY.length < INDEX_ARRAY.length := Nat.mod_lt _ (by decide)
    have := cycleTake_getElem? INDEX_ARRAY (by decide) (SPRITE_CAPACITY * INDEX_STRIDE) i hi
    rw [List.getElem?_eq_getElem hlt, List.getElem?_eq_getElem h6] at this
    have harr : INDEX_ARRAY.length = 6 := by decide
    rw [List.getD_eq_getElem _ _ (by omega)]
    simp only [Option.some_inj] at this
    rw [this]
    rfl
  rw [hbody]
  have hstride : INDEX_STRIDE = 6 := rfl
  rw [hstride]
  ring

/-! ## Claim theorems -/

/-- C1 (code_bug evidence): evaluating `set_texture` on `sampleCtx` (texture 0
bound, `sprite_count = 1`).  Binding texture 0 again is a no-op with no device
calls; binding a texture on a context with none bound issues no flush; but
binding the different texture 1 emits a flush whose draw call samples texture
handle 1 — the *new* texture — because the source stores the new texture
before calling `flush`, contradicting the claim that the buffered quads are
flushed before the new texture becomes the active one. -/
theorem C1_set_texture_swap_draws_with_new_texture :
    set_texture sampleCtx { handle := 0 } = (sampleCtx, []) ∧
    ((set_texture { sampleCtx with texture := none } { handle := 7 }).1.texture =
        some { handle := 7 } ∧
      (set_texture { sampleCtx with texture := none } { handle := 7 }).2 = []) ∧
    ((set_texture sampleCtx { handle := 1 }).1.texture = some { handle := 1 } ∧
      (set_texture sampleCtx { handle := 1 }).2 =
        [GLCall.setUniform 5 "projection" sampleCtx.internal_projection,
         GLCall.setVertexBufferData 10 (List.replicate 32 0) 0,
         GLCall.draw 10 11 5 1 6]) :=
  ⟨rfl, ⟨rfl, rfl⟩, ⟨rfl, rfl⟩⟩

/-- C2: `flush` is a no-op (no device calls, state unchanged) when
`sprite_count = 0` or no texture is bound; otherwise it selects the explicit
shader if set (else the default shader), sets that shader's `projection`
uniform to the internal projection, uploads the whole scratch buffer at
offset 0, issues exactly one indexed draw call of `sprite_count * 6` indices,
and empties the batch; and entry `i` of the fixed index buffer equals
`[0,1,2,2,3,0][i % 6] + 4 * (i / 6)`. -/
theorem C2_flush_device_behavior :
    (∀ ctx : GraphicsContext, ctx.sprite_count = 0 ∨ ctx.texture = none →
      flush ctx = (ctx, [])) ∧
    (∀ (ctx : GraphicsContext) (tex : Texture), ctx.texture = some tex →
      0 < ctx.sprite_count →
      flush ctx =
        ({ ctx with vertices := [], sprite_count := 0 },
         [GLCall.setUniform (ctx.shader.getD ctx.default_shader).handle "projection"
            ctx.internal_projection,
          GLCall.setVertexBufferData ctx.vertex_buffer ctx.vertices 0,
          GLCall.draw ctx.vertex_buffer ctx.index_buffer
            (ctx.shader.getD ctx.default_shader).handle tex.handle
            (ctx.sprite_count * 6)])) ∧
    (∀ i : ℕ, i < SPRITE_CAPACITY * INDEX_STRIDE →
      indexBufferData.getD i 0 = INDEX_ARRAY.getD (i % 6) 0 + 4 * (i / 6)) := by
  refine ⟨?_, ?_, indexBufferData_getD⟩
  · intro ctx h
    rcases h with hz | hn
    · exact flush_of_zero hz
    · exact flush_of_none hn
  · intro ctx tex htex hc
    exact flush_of_pos htex hc

/-- Witness for C2: the three parts applied at concrete inputs — a context
with an empty batch, `sampleCtx` (one quad, texture 0 bound), and index 13 of
the index buffer (13 % 6 = 1, 13 / 6 = 2, so the entry is 1 + 8 = 9). -/
theorem C2_flush_device_behavior_witness :
    flush { sampleCtx with sprite_count := 0 } = ({ sampleCtx with sprite_count := 0 }, []) ∧
    flush sampleCtx =
      ({ sampleCtx with vertices := [], sprite_count := 0 },
       [GLCall.setUniform 5 "projection" sampleCtx.internal_projection,
        GLCall.setVertexBufferData 10 (List.replicate 32 0) 0,
        GLCall.draw 10 11 5 0 6]) ∧
    indexBufferData.getD 13 0 = 9 := by
  refine ⟨?_, ?_, ?_⟩
  · exact C2_flush_device_behavior.1 { sampleCtx with sprite_count := 0 } (Or.inl rfl)
  · exact C2_flush_device_behavior.2.1 sampleCtx { handle := 0 } rfl (by decide)
  · have h := C2_flush_device_behavior.2.2 13 (by decide)
    rw [h]
    decide

/-- C3 counterexample: on a render state with three buffered sprites but no
bound texture, `flush` is a no-op, so after it returns `sprite_count` is
still 3 and the scratch buffer still holds 96 floats — refuting "for every
render state, after any call to flush returns, sprite_count == 0 and the
vertex scratch buffer is empty". -/
theorem C3_flush_without_texture_leaves_batch :
    ¬ ((flush noTextureCtx).1.sprite_count = 0 ∧ (flush noTextureCtx).1.vertices = []) := by
  decide

/-- C3 (amended): for every render state that satisfies the batch invariant
(`vertices.length = sprite_count * 32`) and in which a texture is bound or
`sprite_count = 0`, after `flush` returns `sprite_count = 0` and the scratch
buffer is empty; in particular this holds after any sequence of draw calls
not exceeding capacity followed by `flush`. -/
theorem C3_flush_resets_batch :
    ∀ ctx : GraphicsContext, batchInv ctx →
      ctx.texture.isSome = true ∨ ctx.sprite_count = 0 →
      ((flush ctx).1.sprite_count = 0 ∧ (flush ctx).1.vertices = []) ∧
      ∀ ds : List (Texture × Vertex × Vertex × Vertex × Vertex),
        ctx.sprite_count + ds.length ≤ ctx.capacity →
        (flush (applyDraws ctx ds)).1.sprite_count = 0 ∧
        (flush (applyDraws ctx ds)).1.vertices = [] := by
  intro ctx hinv h
  refine ⟨flush_empties hinv h, ?_⟩
  intro ds _
  have hg := applyDraws_good hinv h ds
  exact flush_empties hg.1 hg.2

/-- Witness for C3 (amended): applied to `sampleCtx` (one buffered quad,
texture 0 bound, invariant `32 = 1 * 32`), both directly and after one
further draw of texture 2. -/
theorem C3_flush_resets_batch_witness :
    ((flush sampleCtx).1.sprite_count = 0 ∧ (flush sampleCtx).1.vertices = []) ∧
    ((flush (applyDraws sampleCtx
        [({ handle := 2 }, { x := 0, y := 0, u := 0, v := 0, color := WHITE },
          { x := 0, y := 1, u := 0, v := 1, color := WHITE },
          { x := 1, y := 1, u := 1, v := 1, color := WHITE },
          { x := 1, y := 0, u := 1, v := 0, color := WHITE })])).1.sprite_count = 0 ∧
     (flush (applyDraws sampleCtx
        [({ handle := 2 }, { x := 0, y := 0, u := 0, v := 0, color := WHITE },
          { x := 0, y := 1, u := 0, v := 1, color := WHITE },
          { x := 1, y := 1, u := 1, v := 1, color := WHITE },
          { x := 1, y := 0, u := 1, v := 0, color := WHITE })])).1.vertices = []) := by
  have h := C3_flush_resets_batch sampleCtx (by decide) (Or.inl (by decide))
  exact ⟨h.1, h.2 _ (by decide)⟩

theorem center_fits {lw ww : ℤ} (h0 : 0 ≤ lw) (hle : lw ≤ ww) :
    0 ≤ Int.tdiv (ww - lw) 2 ∧ Int.tdiv (ww - lw) 2 + lw ≤ ww := by
  rw [Int.tdiv_eq_ediv (by omega) (by omega)]
  refine ⟨Int.ediv_nonneg (by omega) (by omega), ?_⟩
  have hnn : (0:ℤ) ≤ ww - lw := by omega
  have h := Int.ediv_le_self 2 hnn
  omega

theorem scale_own_dim {i w : ℤ} (hi : 0 < i) (hw : 0 < w) :
    0 ≤ Int.tdiv w i ∧ i * Int.tdiv w i ≤ w := by
  rw [Int.tdiv_eq_ediv (by omega) (by omega)]
  refine ⟨Int.ediv_nonneg (by omega) (by omega), ?_⟩
  rw [mul_comm]
  exact Int.ediv_mul_le w (by omega)

theorem scale_cross_dim {i j w v : ℤ} (hi : 0 < i) (hj : 0 < j) (hw : 0 < w)
    (hcross : j * w ≤ i * v) : j * Int.tdiv w i ≤ v := by
  rw [Int.tdiv_eq_ediv (by omega) (by omega)]
  have h1 : i * (w / i) ≤ w := by
    rw [mul_comm]
    exact Int.ediv_mul_le w (by omega)
  have h2 : 0 ≤ w / i := Int.ediv_nonneg (by omega) (by omega)
  nlinarith [mul_le_mul_of_nonneg_left h1 hj.le]

/-- C4: for positive resolutions, `letterbox` computes the scale factor by
floor division of the window dimension by the internal dimension — the width
pair when the window is portrait (`ww ≤ wh`), the height pair otherwise —
sizes the destination to `(iw*s, ih*s)` and centers it by integer division;
and the three concrete cases of the spec. -/
theorem C4_letterbox_integer_scaling :
    (∀ iw ih ww wh : ℤ, 0 < iw → 0 < ih → 0 < ww → 0 < wh →
      letterbox iw ih ww wh =
        Rectangle.new
          ((Int.tdiv (ww - iw * (if ww ≤ wh then Int.fdiv ww iw else Int.fdiv wh ih)) 2 : ℤ) : ℚ)
          ((Int.tdiv (wh - ih * (if ww ≤ wh then Int.fdiv ww iw else Int.fdiv wh ih)) 2 : ℤ) : ℚ)
          ((iw * (if ww ≤ wh then Int.fdiv ww iw else Int.fdiv wh ih) : ℤ) : ℚ)
          ((ih * (if ww ≤ wh then Int.fdiv ww iw else Int.fdiv wh ih) : ℤ) : ℚ)) ∧
    letterbox 320 240 640 480 = Rectangle.new 0 0 640 480 ∧
    letterbox 320 240 800 480 = Rectangle.new 80 0 640 480 ∧
    letterbox 100 100 250 250 = Rectangle.new 25 25 200 200 := by
  refine ⟨?_, by decide, by decide, by decide⟩
  intro iw ih ww wh hiw hih hww hwh
  have hs : (if ww ≤ wh then Int.fdiv ww iw else Int.fdiv wh ih) =
      (if ww ≤ wh then Int.tdiv ww iw else Int.tdiv wh ih) := by
    by_cases hc : ww ≤ wh
    · simp only [if_pos hc]
      rw [Int.fdiv_eq_ediv _ (by omega), Int.tdiv_eq_ediv (by omega) (by omega)]
    · simp only [if_neg hc]
      rw [Int.fdiv_eq_ediv _ (by omega), Int.tdiv_eq_ediv (by omega) (by omega)]
  rw [hs]
  simp only [letterbox, Rectangle.new]

/-- Witness for C4: the general formula applied at internal (320,240),
window (640,480). -/
theorem C4_letterbox_integer_scaling_witness :
    letterbox 320 240 640 480 =
      Rectangle.new
        ((Int.tdiv (640 - 320 * (if (640:ℤ) ≤ 480 then Int.fdiv 640 320 else Int.fdiv 480 240)) 2 : ℤ) : ℚ)
        ((Int.tdiv (480 - 240 * (if (640:ℤ) ≤ 480 then Int.fdiv 640 320 else Int.fdiv 480 240)) 2 : ℤ) : ℚ)
        ((320 * (if (640:ℤ) ≤ 480 then Int.fdiv 640 320 else Int.fdiv 480 240) : ℤ) : ℚ)
        ((240 * (if (640:ℤ) ≤ 480 then Int.fdiv 640 320 else Int.fdiv 480 240) : ℤ) : ℚ) :=
  C4_letterbox_integer_scaling.1 320 240 640 480 (by decide) (by decide) (by decide) (by decide)

/-- C5 counterexample: for the positive resolutions internal (100,10) and
window (50,40), the chosen scale factor is 40/10 = 4, so the destination is
400 wide in a 50-wide window and its x position is (50-400)/2 = -175 < 0 —
the rectangle is not a sub-rectangle of the window. -/
theorem C5_letterbox_escapes_window :
    (0:ℤ) < 100 ∧ (0:ℤ) < 10 ∧ (0:ℤ) < 50 ∧ (0:ℤ) < 40 ∧
      (letterbox 100 10 50 40).x < 0 := by
  decide

/-- C5 (amended): for positive resolutions the letterbox rectangle always
fits the window in the dimension the scale factor was computed from (width
when `ww ≤ wh`, height otherwise); it lies inside the window in both
dimensions whenever the window's aspect ratio does not exceed the internal
aspect ratio in the direction the scale branch assumes
(`ih*ww ≤ iw*wh` in the portrait branch, `iw*wh ≤ ih*ww` in the landscape
branch). -/
theorem C5_letterbox_within_window :
    ∀ iw ih ww wh : ℤ, 0 < iw → 0 < ih → 0 < ww → 0 < wh →
      ((ww ≤ wh →
        0 ≤ (letterbox iw ih ww wh).x ∧
        (letterbox iw ih ww wh).x + (letterbox iw ih ww wh).width ≤ (ww : ℚ)) ∧
       (wh < ww →
        0 ≤ (letterbox iw ih ww wh).y ∧
        (letterbox iw ih ww wh).y + (letterbox iw ih ww wh).height ≤ (wh : ℚ)) ∧
       ((ww ≤ wh → ih * ww ≤ iw * wh) →
        (wh < ww → iw * wh ≤ ih * ww) →
        0 ≤ (letterbox iw ih ww wh).x ∧ 0 ≤ (letterbox iw ih ww wh).y ∧
        (letterbox iw ih ww wh).x + (letterbox iw ih ww wh).width ≤ (ww : ℚ) ∧
        (letterbox iw ih ww wh).y + (letterbox iw ih ww wh).height ≤ (wh : ℚ))) := by
  intro iw ih ww wh hiw hih hww hwh
  by_cases hc : ww ≤ wh
  · simp only [letterbox, Rectangle.new, if_pos hc]
    obtain ⟨hs0, hsle⟩ := scale_own_dim hiw hww
    obtain ⟨hx0, hxw⟩ := center_fits (mul_nonneg hiw.le hs0) hsle
    refine ⟨fun _ => ⟨by exact_mod_cast hx0, by exact_mod_cast hxw⟩,
      fun h => absurd h (not_lt.mpr hc), ?_⟩
    intro hcr1 _
    have hsc : ih * Int.tdiv ww iw ≤ wh := scale_cross_dim hiw hih hww (hcr1 hc)
    obtain ⟨hy0, hyh⟩ := center_fits (mul_nonneg hih.le hs0) hsc
    exact ⟨by exact_mod_cast hx0, by exact_mod_cast hy0,
      by exact_mod_cast hxw, by exact_mod_cast hyh⟩
  · simp only [letterbox, Rectangle.new, if_neg hc]
    obtain ⟨hs0, hsle⟩ := scale_own_dim hih hwh
    obtain ⟨hy0, hyh⟩ := center_fits (mul_nonneg hih.le hs0) hsle
    refine ⟨fun h => absurd h hc, fun _ => ⟨by exact_mod_cast hy0, by exact_mod_cast hyh⟩, ?_⟩
    intro _ hcr2
    have hsc : iw * Int.tdiv wh ih ≤ ww := scale_cross_dim hih hiw hwh (hcr2 (by omega))
    obtain ⟨hx0, hxw⟩ := center_fits (mul_nonneg hiw.le hs0) hsc
    exact ⟨by exact_mod_cast hx0, by exact_mod_cast hy0,
      by exact_mod_cast hxw, by exact_mod_cast hyh⟩

/-- Witness for C5 (amended): internal (320,240), window (640,480) — the
landscape branch with matching aspect ratio; the rectangle is the whole
window. -/
theorem C5_letterbox_within_window_witness :
    0 ≤ (letterbox 320 240 640 480).x ∧ 0 ≤ (letterbox 320 240 640 480).y ∧
    (letterbox 320 240 640 480).x + (letterbox 320 240 640 480).width ≤ ((640:ℤ) : ℚ) ∧
    (letterbox 320 240 640 480).y + (letterbox 320 240 640 480).height ≤ ((480:ℤ) : ℚ) :=
  (C5_letterbox_within_window 320 240 640 480 (by decide) (by decide) (by decide)
    (by decide)).2.2 (by decide) (by decide)

theorem row_nth (n : ℕ) (r : Rectangle) :
    RectangleRow.nth { next_rect := r } n =
      some { r with x := r.x + n * r.width } := by
  induction n generalizing r with
  | zero => simp [RectangleRow.nth, RectangleRow.next]
  | succ n ih =>
    rw [RectangleRow.nth]
    show RectangleRow.nth { next_rect := { r with x := r.x + r.width } } n = _
    rw [ih]
    simp only [Option.some_inj, Rectangle.mk.injEq, and_true]
    push_cast
    ring

theorem column_nth (n : ℕ) (r : Rectangle) :
    RectangleColumn.nth { next_rect := r } n =
      some { r with y := r.y + n * r.height } := by
  induction n generalizing r with
  | zero => simp [RectangleColumn.nth, RectangleColumn.next]
  | succ n ih =>
    rw [RectangleColumn.nth]
    show RectangleColumn.nth { next_rect := { r with y := r.y + r.height } } n = _
    rw [ih]
    simp only [Option.some_inj, Rectangle.mk.injEq, true_and, and_true]
    push_cast
    ring

/-- C6: term `n` (0-indexed) of `Rectangle::row(x,y,w,h)` is
`Rectangle(x + n*w, y, w, h)`, term `n` of `Rectangle::column(x,y,w,h)` is
`Rectangle(x, y + n*h, w, h)`, and both iterators always return an item —
`next` never signals end-of-sequence. -/
theorem C6_row_column_iterators :
    (∀ (x y w h : ℚ) (n : ℕ),
      (Rectangle.row x y w h).nth n = some (Rectangle.new (x + n * w) y w h) ∧
      (Rectangle.column x y w h).nth n = some (Rectangle.new x (y + n * h) w h)) ∧
    (∀ it : RectangleRow, it.next.1 = some it.next_rect) ∧
    (∀ it : RectangleColumn, it.next.1 = some it.next_rect) := by
  refine ⟨?_, fun _ => rfl, fun _ => rfl⟩
  intro x y w h n
  exact ⟨row_nth n (Rectangle.new x y w h), column_nth n (Rectangle.new x y w h)⟩

/-- C7 counterexample: at `w = 0`, `h = 1` the matrix `ortho 0 0 1 0 (-1) 1`
does not map the point (0,0) to clip x-coordinate -1: its translation term
`-(0+0)/(0-0)` is a division by zero (NaN in `f32`, 0 in the exact model), so
the image's x-coordinate is not -1. -/
theorem C7_ortho_zero_width_counterexample :
    ¬ (((ortho 0 0 1 0 (-1) 1).mulVec 0 0 0 1).1 = -1 ∧
       ((ortho 0 0 1 0 (-1) 1).mulVec 0 0 0 1).2.1 = 1) := by
  intro hcontra
  have h1 := hcontra.1
  norm_num [ortho, Mat4.mulVec] at h1

/-- C7 (amended): `ortho` builds exactly the column-major matrix with
diagonal `2/(r-l)`, `2/(t-b)`, `-2/(f-n)`, `1`, translation column
`(-(r+l)/(r-l), -(t+b)/(t-b), -(f+n)/(f-n))` and zeros elsewhere;
consequently for `w ≠ 0` and `h ≠ 0`, `ortho 0 w h 0 (-1) 1` maps (0,0) to
clip (-1,1) and (w,h) to clip (1,-1). -/
theorem C7_ortho_matrix_and_roundtrip :
    (∀ left right bottom top near far : ℚ,
      ortho left right bottom top near far =
        { c0r0 := 2 / (right - left), c0r1 := 0, c0r2 := 0, c0r3 := 0,
          c1r0 := 0, c1r1 := 2 / (top - bottom), c1r2 := 0, c1r3 := 0,
          c2r0 := 0, c2r1 := 0, c2r2 := -2 / (far - near), c2r3 := 0,
          c3r0 := -(right + left) / (right - left),
          c3r1 := -(top + bottom) / (top - bottom),
          c3r2 := -(far + near) / (far - near), c3r3 := 1 }) ∧
    (∀ w h : ℚ, w ≠ 0 → h ≠ 0 →
      ((ortho 0 w h 0 (-1) 1).mulVec 0 0 0 1).1 = -1 ∧
      ((ortho 0 w h 0 (-1) 1).mulVec 0 0 0 1).2.1 = 1 ∧
      ((ortho 0 w h 0 (-1) 1).mulVec w h 0 1).1 = 1 ∧
      ((ortho 0 w h 0 (-1) 1).mulVec w h 0 1).2.1 = -1) := by
  refine ⟨fun _ _ _ _ _ _ => rfl, ?_⟩
  intro w h hw hh
  refine ⟨?_, ?_, ?_, ?_⟩
  · simp only [ortho, Mat4.mulVec]
    field_simp
  · simp only [ortho, Mat4.mulVec]
    field_simp
  · simp only [ortho, Mat4.mulVec]
    field_simp
    ring
  · simp only [ortho, Mat4.mulVec]
    field_simp
    rw [div_neg, mul_div_assoc, div_self hh]
    norm_num

/-- Witness for C7 (amended): the round trip at `w = 2`, `h = 2`. -/
theorem C7_ortho_matrix_and_roundtrip_witness :
    ((ortho 0 2 2 0 (-1) 1).mulVec 0 0 0 1).1 = -1 ∧
    ((ortho 0 2 2 0 (-1) 1).mulVec 0 0 0 1).2.1 = 1 ∧
    ((ortho 0 2 2 0 (-1) 1).mulVec 2 2 0 1).1 = 1 ∧
    ((ortho 0 2 2 0 (-1) 1).mulVec 2 2 0 1).2.1 = -1 :=
  C7_ortho_matrix_and_roundtrip.2 2 2 (by norm_num) (by norm_num)

/-- C8 counterexample: on a render state with three stale buffered sprites
and no bound texture, the flush inside `present` is a no-op, so `present`
uploads the 96 stale floats together with the letterbox quad (128 floats,
not the single 32-float quad) and `sprite_count` is still 3 afterwards —
sprites persist across the swap. -/
theorem C8_present_stale_batch_counterexample :
    ¬ ((present noTextureCtx).1.sprite_count = 0 ∧
       (uploads (present noTextureCtx).2).map List.length = [4 * VERTEX_STRIDE]) := by
  decide

/-- C8 (amended): for every render state satisfying the batch invariant in
which a texture is bound or `sprite_count = 0`, `present` first emits the
flush of the pending batch, then clears the window surface and uploads
exactly the one letterboxed quad (corners of the letterbox rectangle, full
`[0,1]²` UV range, white), sets the default shader's projection uniform to
the window projection, issues one draw call of 6 indices sourcing the
offscreen framebuffer's texture, and leaves an empty scratch buffer and
`sprite_count = 0`. -/
theorem C8_present_pipeline :
    ∀ ctx : GraphicsContext, batchInv ctx →
      ctx.texture.isSome = true ∨ ctx.sprite_count = 0 →
      present ctx =
        ({ (flush ctx).1 with vertices := [] },
         (flush ctx).2 ++
         [GLCall.bindDefaultFramebuffer,
          GLCall.setViewport 0 0 ctx.window_width ctx.window_height,
          GLCall.clear 0 0 0 1,
          GLCall.setUniform ctx.default_shader.handle "projection" ctx.window_projection,
          GLCall.setVertexBufferData ctx.vertex_buffer (letterboxQuad ctx) 0,
          GLCall.draw ctx.vertex_buffer ctx.index_buffer ctx.default_shader.handle
            ctx.framebuffer_texture.handle 6,
          GLCall.swapWindow,
          GLCall.bindFramebuffer ctx.framebuffer,
          GLCall.setViewport 0 0 ctx.internal_width ctx.internal_height]) ∧
      (present ctx).1.sprite_count = 0 ∧ (present ctx).1.vertices = [] := by
  intro ctx hinv h
  obtain ⟨hc0, hv0⟩ := flush_empties hinv h
  have heq : present ctx =
      ({ (flush ctx).1 with vertices := [] },
       (flush ctx).2 ++
       [GLCall.bindDefaultFramebuffer,
        GLCall.setViewport 0 0 ctx.window_width ctx.window_height,
        GLCall.clear 0 0 0 1,
        GLCall.setUniform ctx.default_shader.handle "projection" ctx.window_projection,
        GLCall.setVertexBufferData ctx.vertex_buffer (letterboxQuad ctx) 0,
        GLCall.draw ctx.vertex_buffer ctx.index_buffer ctx.default_shader.handle
          ctx.framebuffer_texture.handle 6,
        GLCall.swapWindow,
        GLCall.bindFramebuffer ctx.framebuffer,
        GLCall.setViewport 0 0 ctx.internal_width ctx.internal_height]) := by
    rcases Nat.eq_zero_or_pos ctx.sprite_count with hz | hpos
    · have hv : ctx.vertices = [] := by
        have hl : ctx.vertices.length = 0 := by
          rw [hinv, hz]
          ring
        exact List.length_eq_zero.mp hl
      simp only [present, clear, push_vertex, letterboxQuad, flush_of_zero hz, BLACK, WHITE,
        List.append_assoc, List.nil_append, List.cons_append, hv]
      rfl
    · rcases h with hsome | hzero
      · rcases Option.isSome_iff_exists.mp hsome with ⟨tex, htex⟩
        simp only [present, clear, push_vertex, letterboxQuad, flush_of_pos htex hpos, BLACK,
          WHITE, List.append_assoc, List.nil_append, List.cons_append]
        rfl
      · omega
  refine ⟨heq, ?_, ?_⟩
  · rw [heq]
    exact hc0
  · rw [heq]

/-- Witness for C8 (amended): `present` on `sampleCtx` (one buffered quad of
texture 0; batch invariant `32 = 1 * 32` holds). -/
theorem C8_present_pipeline_witness :
    present sampleCtx =
      ({ (flush sampleCtx).1 with vertices := [] },
       (flush sampleCtx).2 ++
       [GLCall.bindDefaultFramebuffer,
        GLCall.setViewport 0 0 sampleCtx.window_width sampleCtx.window_height,
        GLCall.clear 0 0 0 1,
        GLCall.setUniform sampleCtx.default_shader.handle "projection"
          sampleCtx.window_projection,
        GLCall.setVertexBufferData sampleCtx.vertex_buffer (letterboxQuad sampleCtx) 0,
        GLCall.draw sampleCtx.vertex_buffer sampleCtx.index_buffer
          sampleCtx.default_shader.handle sampleCtx.framebuffer_texture.handle 6,
        GLCall.swapWindow,
        GLCall.bindFramebuffer sampleCtx.framebuffer,
        GLCall.setViewport 0 0 sampleCtx.internal_width sampleCtx.internal_height]) ∧
    (present sampleCtx).1.sprite_count = 0 ∧ (present sampleCtx).1.vertices = [] :=
  C8_present_pipeline sampleCtx (by decide) (Or.inl (by decide))

/-- C9: `set_window_size` stores the new window dimensions, recomputes the
window projection as `ortho 0 w h 0 (-1) 1` and the letterbox rectangle, and
leaves the internal resolution, internal projection, and the offscreen
framebuffer and its backing texture untouched. -/
theorem C9_set_window_size_updates_window_state_only :
    ∀ (ctx : GraphicsContext) (w h : ℤ),
      set_window_size ctx w h =
        { ctx with
          window_width := w,
          window_height := h,
          window_projection := ortho 0 (w : ℚ) (h : ℚ) 0 (-1) 1,
          letterbox := letterbox ctx.internal_width ctx.internal_height w h } ∧
      (set_window_size ctx w h).internal_width = ctx.internal_width ∧
      (set_window_size ctx w h).internal_height = ctx.internal_height ∧
      (set_window_size ctx w h).internal_projection = ctx.internal_projection ∧
      (set_window_size ctx w h).framebuffer = ctx.framebuffer ∧
      (set_window_size ctx w h).framebuffer_texture = ctx.framebuffer_texture :=
  fun _ _ _ => ⟨rfl, rfl, rfl, rfl, rfl, rfl⟩

/-- C10: `flush` modifies at most `vertices` and `sprite_count`; the bound
texture, shaders, projections, letterbox, capacity, dimensions and GPU
resource handles are identical before and after. -/
theorem C10_flush_touches_only_the_batch :
    ∀ ctx : GraphicsContext,
      (flush ctx).1.texture = ctx.texture ∧
      (flush ctx).1.shader = ctx.shader ∧
      (flush ctx).1.default_shader = ctx.default_shader ∧
      (flush ctx).1.internal_projection = ctx.internal_projection ∧
      (flush ctx).1.window_projection = ctx.window_projection ∧
      (flush ctx).1.letterbox = ctx.letterbox ∧
      (flush ctx).1.capacity = ctx.capacity ∧
      (flush ctx).1.internal_width = ctx.internal_width ∧
      (flush ctx).1.internal_height = ctx.internal_height ∧
      (flush ctx).1.window_width = ctx.window_width ∧
      (flush ctx).1.window_height = ctx.window_height ∧
      (flush ctx).1.vertex_buffer = ctx.vertex_buffer ∧
      (flush ctx).1.index_buffer = ctx.index_buffer ∧
      (flush ctx).1.framebuffer = ctx.framebuffer ∧
      (flush ctx).1.framebuffer_texture = ctx.framebuffer_texture := by
  intro ctx
  unfold flush
  split
  · split <;> simp
  · simp

end Tetra
